import Mathlib

/- Verification of the content-to-deck pipeline and the UI layer of a small
   PowerPoint generator web application.  The definitions below are a shallow
   embedding of the two Python source files, `src/ppt_generator.py` and
   `src/app.py`.  Strings manipulated by the extraction heuristic are modelled
   as `List Char`; Python dictionaries produced by `json.loads` are modelled by
   the `PyValue` inductive type; the two external network calls (the LLM
   chat-completion request and the stock-photo download) are modelled as
   explicit parameters, since their behaviour is not code of this repository. -/

/-- The backtick character (code point 96). -/
def btick : Char := Char.ofNat 96

/-- The opening curly brace character (code point 123). -/
def lbrace : Char := Char.ofNat 123

/-- The closing curly brace character (code point 125). -/
def rbrace : Char := Char.ofNat 125

/-- Characters removed by the Python `str.strip()` method (ASCII whitespace:
space, tab, newline, carriage return, vertical tab, form feed). -/
def isPyWS (c : Char) : Bool :=
  c == ' ' || c == '\t' || c == '\n' || c == '\r' || c == Char.ofNat 11 || c == Char.ofNat 12

/-- Python `s.strip()` on a character list: remove whitespace from both ends. -/
def pyStrip (l : List Char) : List Char :=
  ((l.dropWhile isPyWS).reverse.dropWhile isPyWS).reverse

/-- The unlabeled code fence marker, three backticks. -/
def fence : List Char := [btick, btick, btick]

/-- The labeled code fence marker, three backticks followed by "json". -/
def fenceJson : List Char := fence ++ ['j', 's', 'o', 'n']

/-- Split at the first occurrence of `sep`: `some (a, b)` where `l = a ++ sep ++ b`
with `a` shortest, or `none` when `sep` does not occur in `l`.  This is the
primitive underlying the Python `str.split(sep)` indexing used by the source
(`split(sep)[0]` and `split(sep)[1]`). -/
def breakOn (sep : List Char) : List Char → Option (List Char × List Char)
  | [] => none
  | c :: cs =>
    if sep.isPrefixOf (c :: cs) then some ([], (c :: cs).drop sep.length)
    else
      match breakOn sep cs with
      | some (a, b) => some (c :: a, b)
      | none => none

/-- The text after the first occurrence of `sep` (used only when `sep` is known
to occur, which the source guarantees with a `startswith` test). -/
def partAfterFirst (sep l : List Char) : List Char :=
  match breakOn sep l with
  | some p => p.2
  | none => []

/-- The text before the first occurrence of `sep`, or all of `l` when `sep`
does not occur.  `python`: `l.split(sep)[0]`; also, composed after
`partAfterFirst`, it gives `l.split(sep)[1]`. -/
def partBeforeFirst (sep l : List Char) : List Char :=
  match breakOn sep l with
  | some p => p.1
  | none => l

/-- The brace-window step of the extraction, `src/ppt_generator.py` lines
97-100: `start = content.find(chr(123))`, `end = content.rfind(chr(125))`, and
when both are found, keep `content[start:end+1]`.  Dropping up to the first
opening brace and (from the right) up to the last closing brace is equivalent:
when the last closing brace precedes the first opening brace the Python slice
is empty, and so is the double `dropWhile`. -/
def braceSlice (l : List Char) : List Char :=
  if lbrace ∈ l ∧ rbrace ∈ l then
    ((l.dropWhile (fun c => c != lbrace)).reverse.dropWhile (fun c => c != rbrace)).reverse
  else l

/-- The JSON extraction heuristic of `generate_presentation_content`,
`src/ppt_generator.py` lines 89-100: strip the response, remove a leading
labeled or unlabeled code fence (via `split` indexing exactly as the source
does), then keep the substring from the first opening brace to the last
closing brace. -/
def extractContent (raw : List Char) : List Char :=
  let content := pyStrip raw
  let content :=
    if fenceJson.isPrefixOf content then
      pyStrip (partBeforeFirst fence (partBeforeFirst fenceJson (partAfterFirst fenceJson content)))
    else if fence.isPrefixOf content then
      pyStrip (partBeforeFirst fence (partBeforeFirst fence (partAfterFirst fence content)))
    else content
  braceSlice content

/-- String-level wrapper of the extraction step. -/
def extractS (s : String) : String :=
  (extractContent s.data).asString

/- ===== Data model: Python values produced by `json.loads` ===== -/

/-- A Python value as produced by `json.loads` (and as built literally by the
fallback generator): strings, integers, booleans, `None`, lists, and
dictionaries with string keys in insertion order. -/
inductive PyValue where
  | str : String → PyValue
  | intv : Int → PyValue
  | boolv : Bool → PyValue
  | null : PyValue
  | list : List PyValue → PyValue
  | dict : List (String × PyValue) → PyValue

/-- Python truthiness, used by the structural check
`not parsed_content[slides_key]`. -/
def pyTruthy : PyValue → Bool
  | .str s => s != ""
  | .intv n => n != 0
  | .boolv b => b
  | .null => false
  | .list xs => !xs.isEmpty
  | .dict kvs => !kvs.isEmpty

/-- First binding of a key in an association list (Python dictionaries have
unique keys, so the first binding is the binding). -/
def lookupFirst {α : Type} (k : String) : List (String × α) → Option α
  | [] => none
  | (k2, v) :: rest => if k2 = k then some v else lookupFirst k rest

/-- Python subscription `v[k]` with a string key: a `KeyError` on a dictionary
without the key, a `TypeError` on every non-dictionary. -/
def pyGetItem (v : PyValue) (k : String) : Except String PyValue :=
  match v with
  | .dict kvs =>
    match lookupFirst k kvs with
    | some x => .ok x
    | none => .error "KeyError"
  | _ => .error "TypeError"

/-- Python `v.get(k, default)`: only dictionaries have the `get` method, every
other value raises an `AttributeError`. -/
def pyDictGet (v : PyValue) (k : String) (default : PyValue) : Except String PyValue :=
  match v with
  | .dict kvs => .ok ((lookupFirst k kvs).getD default)
  | _ => .error "AttributeError"

/-- Python iteration over a value: lists yield their elements, strings yield
their characters as one-character strings, dictionaries yield their keys, and
every other value raises a `TypeError`.  Used for the rendering loop
`for i, slide_data in enumerate(presentation_data[slides_key])` and for the
bullet loop over `slide_data.get(content_key, [])`. -/
def pyIter : PyValue → Except String (List PyValue)
  | .list xs => .ok xs
  | .str s => .ok (s.data.map (fun c => .str (String.singleton c)))
  | .dict kvs => .ok (kvs.map (fun kv => .str kv.1))
  | _ => .error "TypeError"

/-- Assignment of a value to a text attribute of the presentation library
(`title.text = v`, `p.text = v`): the library accepts strings only and raises
a `TypeError` otherwise. -/
def asStr : PyValue → Except String String
  | .str s => .ok s
  | _ => .error "TypeError"

/-- The structural check of `generate_presentation_content`,
`src/ppt_generator.py` lines 104-105: `if slides_key not in parsed_content or
not parsed_content[slides_key]: raise ValueError(...)`.  On a non-dictionary
the membership test or the subscription raises (`TypeError`); the enclosing
`except` treats every raise the same way. -/
def checkSlides (v : PyValue) : Except String PyValue :=
  match v with
  | .dict kvs =>
    match lookupFirst "slides" kvs with
    | none => .error "Invalid JSON structure"
    | some sv => if pyTruthy sv then .ok v else .error "Invalid JSON structure"
  | _ => .error "TypeError"

/- ===== The fallback content generator ===== -/

/-- Python `enumerate` with a start index, modelled recursively. -/
def enumerate {α : Type} : Nat → List α → List (Nat × α)
  | _, [] => []
  | i, a :: as => (i, a) :: enumerate (i + 1) as

/-- The cyclic colour list of `_create_fallback_content`, line 122. -/
def fallback_colors : List String := ["white", "light_blue", "white", "gradient"]

/-- The title slide descriptor built by `_create_fallback_content`,
lines 115-120. -/
def fallback_title_slide (topic : String) : PyValue :=
  .dict [("slide_type", .str "title"),
         ("title", .str topic),
         ("subtitle", .str "Comprehensive Professional Presentation"),
         ("background_color", .str "blue")]

/-- One section slide descriptor built by `_create_fallback_content`,
lines 124-136, for section name `name` at loop index `i`. -/
def fallback_section_slide (topic name : String) (i : Nat) : PyValue :=
  .dict [("slide_type", .str "section"),
         ("title", .str name),
         ("content", .list [
           .str ("Detailed analysis of " ++ name ++ ": " ++ topic ++
             " involves multiple components including strategic planning and execution frameworks"),
           .str ("Key features: Core elements include " ++ name.toLower ++
             " methodology, implementation techniques, and performance metrics"),
           .str "Practical example: Case study from Fortune 500 company showing 35% improvement using these methods",
           .str ("Best practices: Industry-standard approaches for " ++ name.toLower ++
             " with measurable results"),
           .str "Current trends: 2024 data shows 42% adoption rate in top organizations with positive ROI"]),
         ("background_color", .str (fallback_colors.getD (i % fallback_colors.length) "white"))]

/-- The summary slide descriptor built by `_create_fallback_content`,
lines 138-149. -/
def fallback_summary_slide : PyValue :=
  .dict [("slide_type", .str "summary"),
         ("title", .str "Conclusion & Recommendations"),
         ("content", .list [
           .str "Comprehensive review of all key concepts with supporting data",
           .str "Actionable 6-month implementation plan with milestones",
           .str "Strategic roadmap for long-term success and scalability",
           .str "Resource allocation and team requirements",
           .str "Q&A and next steps for immediate action"]),
         ("background_color", .str "blue")]

/-- The slide descriptor list built by `_create_fallback_content`: the title
slide, one section slide per requested section name (in order, with the loop
index driving the colour cycle), and the fixed summary slide. -/
def fallback_slides (topic : String) (content_names : List String) : List PyValue :=
  fallback_title_slide topic ::
    ((enumerate 0 content_names).map (fun p => fallback_section_slide topic p.2 p.1) ++
      [fallback_summary_slide])

/-- `_create_fallback_content`, `src/ppt_generator.py` lines 113-151: the
deterministic templated deck used when the API path fails. -/
def _create_fallback_content (topic : String) (content_names : List String) : PyValue :=
  .dict [("title", .str topic), ("slides", .list (fallback_slides topic content_names))]

/- ===== The content generation pipeline ===== -/

/-- `generate_presentation_content`, `src/ppt_generator.py` lines 18-111.
The LLM chat-completion call is external input, modelled as `llm`
(`.error` when the network call raises, `.ok` with the stripped-then-raw
response text otherwise); `json.loads` is the external JSON parser, modelled
as `parse` (`.error` when parsing raises `JSONDecodeError`).  The `try` block
covers the call, the extraction, the parse, and the structural check; any
raise inside it is answered by returning the fallback deck. -/
def generate_presentation_content (llm : Except String String)
    (parse : String → Except String PyValue)
    (topic : String) (content_names : List String) : PyValue :=
  match llm with
  | .error _ => _create_fallback_content topic content_names
  | .ok resp =>
    match parse (extractS resp) with
    | .error _ => _create_fallback_content topic content_names
    | .ok parsed =>
      match checkSlides parsed with
      | .error _ => _create_fallback_content topic content_names
      | .ok v => v

/- ===== Slide rendering ===== -/

/-- An RGB colour, as `RGBColor(r, g, b)` of the presentation library. -/
structure RGB where
  r : Nat
  g : Nat
  b : Nat
deriving DecidableEq

/-- The colour dictionary of `get_background_color`, lines 170-176. -/
def colorTable : List (String × RGB) :=
  [("blue", ⟨0, 84, 147⟩),
   ("light_blue", ⟨220, 240, 255⟩),
   ("white", ⟨255, 255, 255⟩),
   ("dark", ⟨34, 40, 49⟩),
   ("gradient", ⟨240, 248, 255⟩)]

/-- `get_background_color`, `src/ppt_generator.py` lines 168-177:
`colors.get(color_name, colors[white_key])`. -/
def get_background_color (color_name : String) : RGB :=
  (lookupFirst color_name colorTable).getD ⟨255, 255, 255⟩

/-- The same lookup when the descriptor field holds an arbitrary JSON value:
`dict.get` answers the default for any hashable non-key (numbers, booleans,
`None`) and raises a `TypeError` on unhashable values (lists, dictionaries). -/
def get_background_color_v : PyValue → Except String RGB
  | .str s => .ok (get_background_color s)
  | .intv _ => .ok ⟨255, 255, 255⟩
  | .boolv _ => .ok ⟨255, 255, 255⟩
  | .null => .ok ⟨255, 255, 255⟩
  | .list _ => .error "TypeError"
  | .dict _ => .error "TypeError"

/-- The observable state of one slide of the document.  Every layout builder
of the source begins with `presentation.slides.add_slide(slide_layout)`
(lines 193, 220, 274) and only then mutates the slide, so the slide exists in
the document from that point on whatever happens next; the optional fields
record how far the mutation got before a raise.  `background` is the colour
assigned from the colour table (`none` while the fill still holds its default),
`title` is the assigned title text (`none` before the assignment), and `body`
holds the paragraph texts assigned so far (the subtitle for a title slide, the
bullets for content and summary slides).  Font sizes, bold flags, alignment,
empty leftover paragraphs of an interrupted bullet loop, and the best-effort
stock photo (whose download failure is swallowed by `download_image` and whose
embedding sits in its own `try`) are presentation details not modelled. -/
structure RenderedSlide where
  layout : Nat
  background : Option RGB
  title : Option String
  body : List String
deriving DecidableEq

/-- The bullet loop of a content or summary slide: each bullet is assigned to
a paragraph text in order; a non-string bullet raises, keeping the paragraphs
assigned before it. -/
def renderBullets : List PyValue → List String × Option String
  | [] => ([], none)
  | v :: vs =>
    match asStr v with
    | .error e => ([], some e)
    | .ok s =>
      match renderBullets vs with
      | (rest, err) => (s :: rest, err)

/-- `_create_title_slide`, lines 190-215: the slide is added with layout 0
first, then the background colour (descriptor default "blue"), then the
mandatory title (`slide_data[title_key]` raises a `KeyError` when absent),
then the subtitle defaulting to the empty string.  The result pairs the slide
state reached with the exception raised, if any. -/
def _create_title_slide (sd : PyValue) : RenderedSlide × Option String :=
  match pyDictGet sd "background_color" (PyValue.str "blue") with
  | .error e => ({ layout := 0, background := none, title := none, body := [] }, some e)
  | .ok bgv =>
    match get_background_color_v bgv with
    | .error e => ({ layout := 0, background := none, title := none, body := [] }, some e)
    | .ok bg =>
      match pyGetItem sd "title" with
      | .error e => ({ layout := 0, background := some bg, title := none, body := [] }, some e)
      | .ok tv =>
        match asStr tv with
        | .error e => ({ layout := 0, background := some bg, title := none, body := [] }, some e)
        | .ok t =>
          match pyDictGet sd "subtitle" (PyValue.str "") with
          | .error e =>
            ({ layout := 0, background := some bg, title := some t, body := [] }, some e)
          | .ok sv =>
            match asStr sv with
            | .error e =>
              ({ layout := 0, background := some bg, title := some t, body := [] }, some e)
            | .ok sub =>
              ({ layout := 0, background := some bg, title := some t, body := [sub] }, none)

/-- `_create_content_slide`, lines 217-269: the slide is added with layout 1
first, then background (default "white"), then the mandatory title, then the
bullets from `slide_data.get(content_key, [])`. -/
def _create_content_slide (sd : PyValue) (_slide_index : Nat) : RenderedSlide × Option String :=
  match pyDictGet sd "background_color" (PyValue.str "white") with
  | .error e => ({ layout := 1, background := none, title := none, body := [] }, some e)
  | .ok bgv =>
    match get_background_color_v bgv with
    | .error e => ({ layout := 1, background := none, title := none, body := [] }, some e)
    | .ok bg =>
      match pyGetItem sd "title" with
      | .error e => ({ layout := 1, background := some bg, title := none, body := [] }, some e)
      | .ok tv =>
        match asStr tv with
        | .error e => ({ layout := 1, background := some bg, title := none, body := [] }, some e)
        | .ok t =>
          match pyDictGet sd "content" (PyValue.list []) with
          | .error e =>
            ({ layout := 1, background := some bg, title := some t, body := [] }, some e)
          | .ok cv =>
            match pyIter cv with
            | .error e =>
              ({ layout := 1, background := some bg, title := some t, body := [] }, some e)
            | .ok items =>
              match renderBullets items with
              | (bullets, err) =>
                ({ layout := 1, background := some bg, title := some t, body := bullets }, err)

/-- `_create_summary_slide`, lines 271-308: as the content slide, with layout
1 and background default "light_blue". -/
def _create_summary_slide (sd : PyValue) : RenderedSlide × Option String :=
  match pyDictGet sd "background_color" (PyValue.str "light_blue") with
  | .error e => ({ layout := 1, background := none, title := none, body := [] }, some e)
  | .ok bgv =>
    match get_background_color_v bgv with
    | .error e => ({ layout := 1, background := none, title := none, body := [] }, some e)
    | .ok bg =>
      match pyGetItem sd "title" with
      | .error e => ({ layout := 1, background := some bg, title := none, body := [] }, some e)
      | .ok tv =>
        match asStr tv with
        | .error e => ({ layout := 1, background := some bg, title := none, body := [] }, some e)
        | .ok t =>
          match pyDictGet sd "content" (PyValue.list []) with
          | .error e =>
            ({ layout := 1, background := some bg, title := some t, body := [] }, some e)
          | .ok cv =>
            match pyIter cv with
            | .error e =>
              ({ layout := 1, background := some bg, title := some t, body := [] }, some e)
            | .ok items =>
              match renderBullets items with
              | (bullets, err) =>
                ({ layout := 1, background := some bg, title := some t, body := bullets }, err)

/-- `create_slide`, `src/ppt_generator.py` lines 179-188: read
`slide_data.get(slide_type_key, section_default)` and dispatch; any value
other than the string "title" or the string "summary" (including every
non-string value) goes to the content-slide builder.  On a non-dictionary
descriptor the `.get` itself raises, before any builder runs and before any
slide is added (`Except.error`); on a dictionary the chosen builder always
adds its slide and reports the state reached together with the exception
raised inside it, if any. -/
def create_slide (sd : PyValue) (slide_index : Nat) :
    Except String (RenderedSlide × Option String) :=
  match pyDictGet sd "slide_type" (PyValue.str "section") with
  | .error e => .error e
  | .ok st =>
    match st with
    | .str s =>
      if s = "title" then .ok (_create_title_slide sd)
      else if s = "summary" then .ok (_create_summary_slide sd)
      else .ok (_create_content_slide sd slide_index)
    | _ => .ok (_create_content_slide sd slide_index)

/-- The rendering loop of `create_powerpoint`, lines 317-321: each descriptor
is rendered inside its own `try`, a raise is printed and the loop moves on to
the next descriptor with the next index.  A raise after `add_slide` (any
failure of a dictionary descriptor) leaves the partially built slide in the
document; a raise before `add_slide` (a non-dictionary descriptor) leaves
nothing. -/
def renderLoop : List PyValue → Nat → List RenderedSlide
  | [], _ => []
  | sd :: rest, i =>
    match create_slide sd i with
    | .ok r => r.1 :: renderLoop rest (i + 1)
    | .error _ => renderLoop rest (i + 1)

/-- The saved presentation document: page dimensions in EMU (the unit of
`pptx.util.Inches`; one inch is 914400 EMU) and the rendered slides in
order. -/
structure PresentationFile where
  width : Nat
  height : Nat
  slides : List RenderedSlide
deriving DecidableEq

/-- `create_powerpoint`, `src/ppt_generator.py` lines 310-323: a fresh
presentation with `slide_width = Inches(10)` and `slide_height = Inches(7.5)`
(9144000 and 6858000 EMU), then the per-slide loop over
`presentation_data[slides_key]`, then the save.  A missing `slides` key or a
non-iterable value raises out of the function (only per-slide errors are
caught). -/
def create_powerpoint (presentation_data : PyValue) : Except String PresentationFile :=
  match pyGetItem presentation_data "slides" with
  | .error e => .error e
  | .ok sv =>
    match pyIter sv with
    | .error e => .error e
    | .ok xs => .ok { width := 9144000, height := 6858000, slides := renderLoop xs 0 }

/-- `create_presentation`, `src/ppt_generator.py` lines 325-334: generate the
content (with fallback) and render it to a document.  The output file naming
is not modelled; the result is the document that `presentation.save` writes. -/
def create_presentation (llm : Except String String)
    (parse : String → Except String PyValue)
    (topic : String) (content_names : List String) : Except String PresentationFile :=
  create_powerpoint (generate_presentation_content llm parse topic content_names)

/- ===== The UI layer, `src/app.py` ===== -/

/-- Python `s.strip()` at string level. -/
def pyStripS (s : String) : String :=
  (pyStrip s.data).asString

/-- The validation expression of `main`, `src/app.py` lines 143-145:
`topic and len(topic.strip()) >= 3 and api_key and len(api_key.strip()) >= 10
and all(section.strip() for section in content_sections)`. -/
def is_valid (topic api_key : String) (content_sections : List String) : Bool :=
  (topic != "" && decide (3 ≤ (pyStripS topic).length)) &&
  (api_key != "" && decide (10 ≤ (pyStripS api_key).length)) &&
  content_sections.all (fun s => pyStripS s != "")

/-- The disabled condition of the submit button, `src/app.py` line 152:
`disabled = not is_valid or st.session_state.generating`. -/
def submit_disabled (topic api_key : String) (content_sections : List String)
    (generating : Bool) : Bool :=
  !is_valid topic api_key content_sections || generating

/-- The submit control is enabled exactly when it is not disabled. -/
def submit_enabled (topic api_key : String) (content_sections : List String)
    (generating : Bool) : Bool :=
  !submit_disabled topic api_key content_sections generating

/-- The session state of the form, `initialize_session_state`,
`src/app.py` lines 53-61. -/
structure SessionState where
  presentation_generated : Bool
  content_sections : List String
  generating : Bool
  generated_file_path : Option String
deriving DecidableEq

/-- `generate_presentation`, `src/app.py` lines 63-83: set the `generating`
flag, run the pipeline (modelled by its outcome `result`: the output path on
success, or the exception raised anywhere inside the `try`), and either record
the success and clear the flag, or catch the exception, clear the flag, show
the error, and return `None`. -/
def app_generate_presentation (st0 : SessionState) (result : Except String String) :
    SessionState × Option String :=
  let st1 := { st0 with generating := true }
  match result with
  | .ok path =>
    ({ st1 with presentation_generated := true,
                generated_file_path := some path,
                generating := false }, some path)
  | .error _ =>
    ({ st1 with generating := false }, none)

/- ===== Shared helper lemmas ===== -/

/-- A field of a slide descriptor dictionary, used to state structural claims
about descriptors. -/
def slideField (v : PyValue) (k : String) : Option PyValue :=
  match v with
  | .dict kvs => lookupFirst k kvs
  | _ => none

theorem enumerate_length {α : Type} : ∀ (i : Nat) (l : List α),
    (enumerate i l).length = l.length := by
  intro i l
  induction l generalizing i with
  | nil => rfl
  | cons a as ih => simp [enumerate, ih]

theorem enumerate_getElem? {α : Type} : ∀ (i j : Nat) (l : List α),
    (enumerate i l)[j]? = l[j]?.map (fun a => (i + j, a)) := by
  intro i j l
  induction l generalizing i j with
  | nil => simp [enumerate]
  | cons a as ih =>
    cases j with
    | zero => simp [enumerate]
    | succ j =>
      have harith : i + 1 + j = i + (j + 1) := by omega
      simp [enumerate, ih (i + 1) j, harith]

/- ===== Claim C1 ===== -/

/-- C1: for every topic and section list, if the LLM call raises, the response
fails to parse as JSON, or the parsed object fails the structural check on the
`slides` key, then `generate_presentation_content` returns the deterministic
fallback structure produced by `_create_fallback_content` (and, being a total
function of the modelled outcomes, raises nothing past that boundary). -/
theorem generate_presentation_content_falls_back
    (llm : Except String String) (parse : String → Except String PyValue)
    (topic : String) (content_names : List String)
    (h : (∃ e, llm = .error e) ∨
         (∃ r e, llm = .ok r ∧ parse (extractS r) = .error e) ∨
         (∃ r v e, llm = .ok r ∧ parse (extractS r) = .ok v ∧ checkSlides v = .error e)) :
    generate_presentation_content llm parse topic content_names =
      _create_fallback_content topic content_names := by
  rcases h with ⟨e, he⟩ | ⟨r, e, hr, hp⟩ | ⟨r, v, e, hr, hp, hc⟩
  · subst he; rfl
  · subst hr; simp [generate_presentation_content, hp]
  · subst hr; simp [generate_presentation_content, hp, hc]

/-- Witness for C1 at a concrete failing LLM call. -/
theorem generate_presentation_content_falls_back_witness :
    generate_presentation_content (Except.error "network down")
        (fun _ => Except.error "unused") "Cloud Security" ["Overview", "Threats", "Defenses"] =
      _create_fallback_content "Cloud Security" ["Overview", "Threats", "Defenses"] :=
  generate_presentation_content_falls_back _ _ _ _ (Or.inl ⟨"network down", rfl⟩)

/- ===== Claim C8 ===== -/

/-- C8: the fallback generator is deterministic: two calls with the same topic
and the same section list yield equal structures (in the pure embedding this
is definitional, which is the point: the function consumes nothing besides its
two arguments). -/
theorem fallback_content_deterministic (t1 t2 : String) (n1 n2 : List String)
    (h1 : t1 = t2) (h2 : n1 = n2) :
    _create_fallback_content t1 n1 = _create_fallback_content t2 n2 := by
  subst h1; subst h2; rfl

/-- Witness for C8 at a concrete pair of equal calls. -/
theorem fallback_content_deterministic_witness :
    _create_fallback_content "Cloud Security" ["Overview"] =
      _create_fallback_content "Cloud Security" ["Overview"] :=
  fallback_content_deterministic _ _ _ _ rfl rfl

/- ===== Claim C10 ===== -/

/-- C10: `generate_presentation` always leaves the session `generating` flag
`False` when it returns, on the success path (returning the output path) as
well as on the exception path (returning `None`). -/
theorem generating_flag_reset (st0 : SessionState) (result : Except String String) :
    (app_generate_presentation st0 result).1.generating = false ∧
    (app_generate_presentation st0 result).2 =
      (match result with | .ok p => some p | .error _ => none) := by
  cases result <;> simp [app_generate_presentation]

/- ===== Claim C7 ===== -/

/-- C7: `get_background_color` answers the defined default colour
`RGBColor(255, 255, 255)` on every name outside the colour dictionary, and
(being a total lookup with a default) raises nothing. -/
theorem unknown_background_color_default (color_name : String)
    (h : color_name ∉ ["blue", "light_blue", "white", "dark", "gradient"]) :
    get_background_color color_name = ⟨255, 255, 255⟩ := by
  simp only [List.mem_cons, List.not_mem_nil, or_false, not_or] at h
  obtain ⟨h1, h2, h3, h4, h5⟩ := h
  simp [get_background_color, colorTable, lookupFirst,
    Ne.symm h1, Ne.symm h2, Ne.symm h3, Ne.symm h4, Ne.symm h5]

/-- Witness for C7 at a concrete unknown colour name. -/
theorem unknown_background_color_default_witness :
    get_background_color "magenta" = ⟨255, 255, 255⟩ :=
  unknown_background_color_default "magenta" (by decide)

/- ===== Claim C9 ===== -/

/-- C9: on a slide descriptor dictionary whose `slide_type` binding is absent
or holds any value other than the strings "title" and "summary",
`create_slide` dispatches to the content-slide builder; the dispatch itself
never fails on an unknown slide type (the result is the content builder run,
never the pre-dispatch `Except.error`). -/
theorem create_slide_unknown_type_dispatch (kvs : List (String × PyValue)) (i : Nat)
    (h : ∀ v, lookupFirst "slide_type" kvs = some v →
        v ≠ PyValue.str "title" ∧ v ≠ PyValue.str "summary") :
    create_slide (PyValue.dict kvs) i = .ok (_create_content_slide (PyValue.dict kvs) i) := by
  cases hl : lookupFirst "slide_type" kvs with
  | none => simp [create_slide, pyDictGet, hl]
  | some v =>
    obtain ⟨h1, h2⟩ := h v hl
    cases v with
    | str s =>
      have hs1 : s ≠ "title" := fun hh => h1 (by rw [hh])
      have hs2 : s ≠ "summary" := fun hh => h2 (by rw [hh])
      simp [create_slide, pyDictGet, hl, hs1, hs2]
    | intv n => simp [create_slide, pyDictGet, hl]
    | boolv b => simp [create_slide, pyDictGet, hl]
    | null => simp [create_slide, pyDictGet, hl]
    | list xs => simp [create_slide, pyDictGet, hl]
    | dict kvs2 => simp [create_slide, pyDictGet, hl]

/-- Witness for C9 at a concrete descriptor with an unrecognized type. -/
theorem create_slide_unknown_type_dispatch_witness :
    create_slide (PyValue.dict [("slide_type", PyValue.str "weird"),
        ("title", PyValue.str "X")]) 0 =
      .ok (_create_content_slide (PyValue.dict [("slide_type", PyValue.str "weird"),
        ("title", PyValue.str "X")]) 0) :=
  create_slide_unknown_type_dispatch _ 0 (by
    intro v hv
    simp [lookupFirst] at hv
    subst hv
    constructor <;> simp)

/- ===== Claim C6 ===== -/

/-- The empty string strips to a string of length zero, so a length bound on
the stripped string forces non-emptiness (this is why the separate Python
truthiness tests in the validation expression are redundant). -/
theorem stripped_length_ne_empty (s : String) (n : Nat) (h1 : 1 ≤ n)
    (h2 : n ≤ (pyStripS s).length) : s ≠ "" := by
  intro hs
  subst hs
  have : (pyStripS "").length = 0 := rfl
  omega

/-- C6: the submit control is enabled exactly when the trimmed topic has at
least 3 characters, the trimmed API key has at least 10 characters, every
section title is non-blank after trimming, and no generation is in progress;
in particular it stays disabled whenever some section strips to the empty
string, whatever the topic and the key. -/
theorem submit_enabled_iff (topic api_key : String) (content_sections : List String)
    (generating : Bool) :
    submit_enabled topic api_key content_sections generating = true ↔
      (3 ≤ (pyStripS topic).length ∧ 10 ≤ (pyStripS api_key).length ∧
       (∀ s ∈ content_sections, pyStripS s ≠ "") ∧ generating = false) := by
  constructor
  · intro h
    simp [submit_enabled, submit_disabled, is_valid, List.all_eq_true] at h
    exact ⟨h.1.1.1.2, h.1.1.2.2, h.1.2, h.2⟩
  · rintro ⟨h1, h2, h3, hg⟩
    have ht : topic ≠ "" := stripped_length_ne_empty topic 3 (by omega) h1
    have hk : api_key ≠ "" := stripped_length_ne_empty api_key 10 (by omega) h2
    simp [submit_enabled, submit_disabled, is_valid, List.all_eq_true]
    exact ⟨⟨⟨⟨ht, h1⟩, ⟨hk, h2⟩⟩, h3⟩, hg⟩

/-- Witness for C6: a concrete valid form enables the control. -/
theorem submit_enabled_iff_witness :
    submit_enabled "Cloud Security" "gsk_123456789012" ["Overview", "Threats", "Defenses"]
        false = true :=
  (submit_enabled_iff "Cloud Security" "gsk_123456789012" ["Overview", "Threats", "Defenses"]
      false).mpr ⟨by decide, by decide, by decide, rfl⟩

/- ===== Claim C2 ===== -/

/-- C2: for every valid request (trimmed topic of at least 3 characters, 3 to
10 non-blank section names), the fallback deck has exactly
`content_names.length + 2` slide descriptors: descriptor 0 is a `title` slide
whose subtitle is the fixed default string, descriptors 1 through
`content_names.length` are `section` slides titled with the requested section
names in order, and the final descriptor is the `summary` slide titled
"Conclusion & Recommendations". -/
theorem fallback_content_structure (topic : String) (content_names : List String)
    (h1 : 3 ≤ (pyStripS topic).length)
    (h2 : 3 ≤ content_names.length) (h3 : content_names.length ≤ 10)
    (h4 : ∀ n ∈ content_names, pyStripS n ≠ "") :
    (fallback_slides topic content_names).length = content_names.length + 2 ∧
    (∃ v, (fallback_slides topic content_names)[0]? = some v ∧
      slideField v "slide_type" = some (.str "title") ∧
      slideField v "subtitle" = some (.str "Comprehensive Professional Presentation")) ∧
    (∀ i (hi : i < content_names.length), ∃ v,
      (fallback_slides topic content_names)[i + 1]? = some v ∧
      slideField v "slide_type" = some (.str "section") ∧
      slideField v "title" = some (.str content_names[i])) ∧
    (∃ v, (fallback_slides topic content_names)[content_names.length + 1]? = some v ∧
      slideField v "slide_type" = some (.str "summary") ∧
      slideField v "title" = some (.str "Conclusion & Recommendations")) := by
  refine ⟨?_, ?_, ?_, ?_⟩
  · simp [fallback_slides, enumerate_length]
  · exact ⟨fallback_title_slide topic, by rw [fallback_slides]; exact List.getElem?_cons_zero, rfl, rfl⟩
  · intro i hi
    refine ⟨fallback_section_slide topic content_names[i] i, ?_, rfl, rfl⟩
    have hmid : i < ((enumerate 0 content_names).map
        (fun p => fallback_section_slide topic p.2 p.1)).length := by
      simp [enumerate_length]; omega
    rw [fallback_slides, List.getElem?_cons_succ, List.getElem?_append_left hmid,
      List.getElem?_map, enumerate_getElem?, List.getElem?_eq_getElem hi]
    simp
  · refine ⟨fallback_summary_slide, ?_, rfl, rfl⟩
    have hlen : ((enumerate 0 content_names).map
        (fun p => fallback_section_slide topic p.2 p.1)).length ≤ content_names.length := by
      simp [enumerate_length]
    rw [fallback_slides, List.getElem?_cons_succ, List.getElem?_append_right hlen]
    simp [enumerate_length]

/-- Witness for C2: the slide count at the concrete end-to-end scenario of the
specification. -/
theorem fallback_content_structure_witness :
    (fallback_slides "Cloud Security" ["Overview", "Threats", "Defenses"]).length =
      ["Overview", "Threats", "Defenses"].length + 2 :=
  (fallback_content_structure "Cloud Security" ["Overview", "Threats", "Defenses"]
    (by decide) (by decide) (by decide) (by decide)).1

/- ===== Claim C5 ===== -/

/-- The rendering loop distributes over list append, with indices advancing
past the first part. -/
theorem renderLoop_append : ∀ (a b : List PyValue) (i : Nat),
    renderLoop (a ++ b) i = renderLoop a i ++ renderLoop b (i + a.length) := by
  intro a
  induction a with
  | nil => intro b i; simp [renderLoop]
  | cons sd rest ih =>
    intro b i
    have harith : i + 1 + rest.length = i + (rest.length + 1) := by omega
    cases h : create_slide sd i with
    | ok r => simp [renderLoop, h, ih, harith]
    | error e => simp [renderLoop, h, ih, harith]

/-- C5 (amended): a raise while rendering one slide descriptor is caught
without aborting the loop: all later descriptors are still processed in order
at their original indices and the save proceeds.  The document is not,
however, limited to the slides that succeeded: a dictionary descriptor whose
build raises after `add_slide` leaves its partially built slide in the saved
document (first conjunct); only a descriptor whose dispatch raises before
`add_slide` (a non-dictionary) contributes nothing (second conjunct). -/
theorem slide_render_error_skipped (pre : List PyValue) (d : PyValue) (post : List PyValue) :
    (∀ s e, create_slide d pre.length = .ok (s, some e) →
      create_powerpoint (PyValue.dict [("slides", PyValue.list (pre ++ d :: post))]) =
        .ok { width := 9144000, height := 6858000,
              slides := renderLoop pre 0 ++ s :: renderLoop post (pre.length + 1) }) ∧
    (∀ e, create_slide d pre.length = .error e →
      create_powerpoint (PyValue.dict [("slides", PyValue.list (pre ++ d :: post))]) =
        .ok { width := 9144000, height := 6858000,
              slides := renderLoop pre 0 ++ renderLoop post (pre.length + 1) }) := by
  have hsplit : renderLoop (pre ++ d :: post) 0 =
      renderLoop pre 0 ++ renderLoop (d :: post) (0 + pre.length) := renderLoop_append _ _ _
  rw [Nat.zero_add] at hsplit
  constructor
  · intro s e he
    have hkeep : renderLoop (d :: post) pre.length = s :: renderLoop post (pre.length + 1) := by
      rw [renderLoop, he]
    simp [create_powerpoint, pyGetItem, lookupFirst, pyIter, hsplit, hkeep]
  · intro e he
    have hskip : renderLoop (d :: post) pre.length = renderLoop post (pre.length + 1) := by
      rw [renderLoop, he]
    simp [create_powerpoint, pyGetItem, lookupFirst, pyIter, hsplit, hskip]

/-- Witness for C5: a three-descriptor list whose middle descriptor (an empty
dictionary, raising a KeyError on the missing title after its slide was
added) leaves its background-only partial slide in the document while both
neighbours are rendered in order. -/
theorem slide_render_error_skipped_witness :
    create_powerpoint (PyValue.dict [("slides", PyValue.list
        ([PyValue.dict [("title", PyValue.str "A")]] ++ PyValue.dict [] ::
          [PyValue.dict [("title", PyValue.str "B")]]))]) =
      .ok { width := 9144000, height := 6858000,
            slides := renderLoop [PyValue.dict [("title", PyValue.str "A")]] 0 ++
              { layout := 1, background := some ⟨255, 255, 255⟩, title := none, body := [] } ::
                renderLoop [PyValue.dict [("title", PyValue.str "B")]]
                  ([PyValue.dict [("title", PyValue.str "A")]].length + 1) } :=
  (slide_render_error_skipped _ _ _).1
    { layout := 1, background := some ⟨255, 255, 255⟩, title := none, body := [] }
    "KeyError" rfl

/-- Counterexample to C5 as stated: on the descriptor list
`[dict (title A), dict (), dict (title B)]` the saved document holds 3
slides, not the 2 that succeeded — the middle descriptor raised a KeyError
after its slide was added (third conjunct), and its title-less partial slide
sits between the two successful ones (second conjunct). -/
theorem slide_render_partial_slide_cex :
    (create_powerpoint (PyValue.dict [("slides", PyValue.list
        [PyValue.dict [("title", PyValue.str "A")], PyValue.dict [],
         PyValue.dict [("title", PyValue.str "B")]])])).map
      (fun f => f.slides.length) = Except.ok 3 ∧
    (create_powerpoint (PyValue.dict [("slides", PyValue.list
        [PyValue.dict [("title", PyValue.str "A")], PyValue.dict [],
         PyValue.dict [("title", PyValue.str "B")]])])).map
      (fun f => f.slides.map (fun s => s.title)) =
      Except.ok [some "A", none, some "B"] ∧
    create_slide (PyValue.dict []) 1 =
      Except.ok ({ layout := 1, background := some ⟨255, 255, 255⟩, title := none,
                   body := [] }, some "KeyError") :=
  ⟨rfl, rfl, rfl⟩

/- ===== Claim C4 ===== -/

/-- When every descriptor of a list is a dictionary (so that its slide is
added), the loop keeps one slide per descriptor. -/
theorem renderLoop_length_of_ok : ∀ (xs : List PyValue) (i : Nat),
    (∀ sd ∈ xs, ∀ j, ∃ r, create_slide sd j = .ok r) →
    (renderLoop xs i).length = xs.length := by
  intro xs
  induction xs with
  | nil => intro i _; rfl
  | cons sd rest ih =>
    intro i h
    obtain ⟨r, hr⟩ := h sd (List.mem_cons_self sd rest) i
    simp [renderLoop, hr, ih (i + 1) (fun x hx j => h x (List.mem_cons_of_mem sd hx) j)]

/-- The fallback title slide renders fully, without raising. -/
theorem create_slide_fallback_title (topic : String) (j : Nat) :
    ∃ s, create_slide (fallback_title_slide topic) j = .ok (s, none) := ⟨_, rfl⟩

/-- Every fallback section slide renders fully, without raising. -/
theorem create_slide_fallback_section (topic name : String) (k j : Nat) :
    ∃ s, create_slide (fallback_section_slide topic name k) j = .ok (s, none) := ⟨_, rfl⟩

/-- The fallback summary slide renders fully, without raising. -/
theorem create_slide_fallback_summary (j : Nat) :
    ∃ s, create_slide fallback_summary_slide j = .ok (s, none) := ⟨_, rfl⟩

/-- Every descriptor of the fallback deck renders fully, without raising. -/
theorem fallback_slides_all_ok (topic : String) (names : List String) :
    ∀ sd ∈ fallback_slides topic names, ∀ j, ∃ s, create_slide sd j = .ok (s, none) := by
  intro sd hsd j
  rw [fallback_slides] at hsd
  rcases List.mem_cons.mp hsd with hh | hmid
  · subst hh; exact create_slide_fallback_title topic j
  · rcases List.mem_append.mp hmid with hmap | hlast
    · obtain ⟨p, _, hfeq⟩ := List.mem_map.mp hmap
      subst hfeq; exact create_slide_fallback_section topic p.2 p.1 j
    · rcases List.mem_singleton.mp hlast with rfl
      exact create_slide_fallback_summary j

/-- C4 (amended): every presentation document the pipeline saves has the
fixed page size of 10 by 7.5 inches (9144000 by 6858000 EMU); and whenever
the content generation falls back — the LLM call raises, the response fails
to parse, or the parsed object fails the `slides` structural check — the
saved document contains exactly `content_names.length + 2` slides (every
fallback descriptor renders fully).  As stated over all requests the original
claim fails: on the success path the rendered deck comes from the parsed LLM
response, which the code never validates against the request. -/
theorem presentation_dimensions_and_fallback_slide_count
    (llm : Except String String) (parse : String → Except String PyValue)
    (topic : String) (content_names : List String) :
    (∀ f, create_presentation llm parse topic content_names = .ok f →
        f.width = 9144000 ∧ f.height = 6858000) ∧
    ((∃ e, llm = .error e) ∨
     (∃ r e, llm = .ok r ∧ parse (extractS r) = .error e) ∨
     (∃ r v e, llm = .ok r ∧ parse (extractS r) = .ok v ∧ checkSlides v = .error e) →
      ∃ f, create_presentation llm parse topic content_names = .ok f ∧
        f.slides.length = content_names.length + 2) := by
  constructor
  · intro f hf
    rw [create_presentation, create_powerpoint] at hf
    split at hf
    · cases hf
    · split at hf
      · cases hf
      · cases hf
        exact ⟨rfl, rfl⟩
  · intro hfb
    have hgen : generate_presentation_content llm parse topic content_names =
        _create_fallback_content topic content_names := by
      rcases hfb with ⟨e, he⟩ | ⟨r, e, hr, hp⟩ | ⟨r, v, e, hr, hp, hc⟩
      · subst he; rfl
      · subst hr; simp [generate_presentation_content, hp]
      · subst hr; simp [generate_presentation_content, hp, hc]
    refine ⟨{ width := 9144000, height := 6858000,
              slides := renderLoop (fallback_slides topic content_names) 0 }, ?_, ?_⟩
    · rw [create_presentation, hgen, create_powerpoint]
      simp [_create_fallback_content, pyGetItem, lookupFirst, pyIter]
    · show (renderLoop (fallback_slides topic content_names) 0).length =
        content_names.length + 2
      rw [renderLoop_length_of_ok _ 0 (fun sd hsd j =>
        (fallback_slides_all_ok topic content_names sd hsd j).elim
          (fun s hs => ⟨(s, none), hs⟩))]
      simp [fallback_slides, enumerate_length]

/-- Witness for C4: the forced-failure scenario of the specification yields a
10 by 7.5 inch document with 5 slides for 3 sections. -/
theorem presentation_dimensions_and_fallback_slide_count_witness :
    (create_presentation (Except.error "boom") (fun _ => Except.error "unused")
        "Cloud Security" ["Overview", "Threats", "Defenses"]).map
      (fun f => (f.width, f.height, f.slides.length)) =
      Except.ok (9144000, 6858000, 5) := by
  obtain ⟨f, hf, hlen⟩ :=
    (presentation_dimensions_and_fallback_slide_count (Except.error "boom")
      (fun _ => Except.error "unused") "Cloud Security"
      ["Overview", "Threats", "Defenses"]).2 (Or.inl ⟨"boom", rfl⟩)
  obtain ⟨hw, hh⟩ :=
    (presentation_dimensions_and_fallback_slide_count (Except.error "boom")
      (fun _ => Except.error "unused") "Cloud Security"
      ["Overview", "Threats", "Defenses"]).1 f hf
  rw [hf]
  simp [Except.map, hw, hh, hlen]

/-- Counterexample to C4 as stated: a request with 3 section names whose LLM
response parses to a deck with a single slide produces a document with 1
slide, not 5.  (The parse function models `json.loads` on that response.) -/
theorem slide_count_llm_path_cex :
    (create_presentation (Except.ok "response")
        (fun _ => Except.ok (PyValue.dict [("slides",
          PyValue.list [PyValue.dict [("title", PyValue.str "Only")]])]))
        "Cloud Security" ["Overview", "Threats", "Defenses"]).map
      (fun f => f.slides.length) = Except.ok 1 ∧
    (1 : Nat) ≠ ["Overview", "Threats", "Defenses"].length + 2 :=
  ⟨rfl, by decide⟩

/- ===== Claim C3: helper lemmas about the extraction primitives ===== -/

theorem dropWhile_cons_false {f : Char → Bool} {c : Char} {l : List Char} (h : f c = false) :
    (c :: l).dropWhile f = c :: l := by
  simp [List.dropWhile_cons, h]

theorem dropWhile_append_head_false {f : Char → Bool} : ∀ (a b : List Char),
    (∀ c, b.head? = some c → f c = false) →
    (a ++ b).dropWhile f = a.dropWhile f ++ b := by
  intro a
  induction a with
  | nil =>
    intro b hb
    cases b with
    | nil => simp
    | cons c bs => simp [dropWhile_cons_false (hb c rfl)]
  | cons x a2 ih =>
    intro b hb
    cases hx : f x with
    | true => simp [List.dropWhile_cons, hx, ih b hb]
    | false => simp [List.dropWhile_cons, hx]

theorem pyStrip_eq_self {l : List Char}
    (h1 : ∀ c, l.head? = some c → isPyWS c = false)
    (h2 : ∀ c, l.getLast? = some c → isPyWS c = false) : pyStrip l = l := by
  cases l with
  | nil => rfl
  | cons a l2 =>
    have ha := h1 a rfl
    rw [pyStrip, dropWhile_cons_false ha]
    cases hr : (a :: l2).reverse with
    | nil => simp at hr
    | cons b r =>
      have hb : (a :: l2).getLast? = some b := by
        rw [← List.head?_reverse, hr]; rfl
      rw [dropWhile_cons_false (h2 b hb), ← hr, List.reverse_reverse]

theorem infix_cons_elim {sep : List Char} {c : Char} {l : List Char}
    (hc : c ∉ sep) (h : sep <:+: (c :: l)) : sep <:+: l := by
  obtain ⟨s, t, hst⟩ := h
  cases s with
  | nil =>
    cases sep with
    | nil => exact List.nil_infix
    | cons x xs =>
      simp only [List.nil_append, List.cons_append, List.cons.injEq] at hst
      exact absurd (hst.1 ▸ List.mem_cons_self x xs) hc
  | cons a s2 =>
    simp only [List.cons_append, List.cons.injEq] at hst
    exact ⟨s2, t, hst.2⟩

theorem infix_snoc_elim {sep : List Char} {c : Char} {l : List Char}
    (hc : c ∉ sep) (h : sep <:+: (l ++ [c])) : sep <:+: l := by
  rw [← List.reverse_infix] at h ⊢
  simp only [List.reverse_append, List.reverse_cons, List.reverse_nil, List.nil_append,
    List.singleton_append] at h
  exact infix_cons_elim (by simpa using hc) h

theorem breakOn_eq_none {sep : List Char} : ∀ {l : List Char},
    ¬ sep <:+: l → breakOn sep l = none := by
  intro l
  induction l with
  | nil => intro _; rfl
  | cons c cs ih =>
    intro h
    have h1 : ¬ (sep.isPrefixOf (c :: cs) = true) := by
      intro hp
      exact h (List.isPrefixOf_iff_prefix.mp hp).isInfix
    have h2 : breakOn sep cs = none := ih (fun hi => h (List.infix_cons hi))
    simp [breakOn, h1, h2]

theorem breakOn_append_self {sep b : List Char} (hsep : sep ≠ []) :
    breakOn sep (sep ++ b) = some ([], b) := by
  cases sep with
  | nil => exact absurd rfl hsep
  | cons c cs =>
    have h1 : (c :: cs).isPrefixOf ((c :: cs) ++ b) = true :=
      List.isPrefixOf_iff_prefix.mpr (List.prefix_append (c :: cs) b)
    have h2 : ((c :: cs) ++ b).drop (c :: cs).length = b := List.drop_left (c :: cs) b
    simp only [List.cons_append] at h1 h2 ⊢
    rw [breakOn, if_pos h1, h2]

theorem breakOn_first_fence {b : List Char} : ∀ {a : List Char},
    ¬ fence <:+: a → (∀ x, a.getLast? = some x → x ≠ btick) →
    breakOn fence (a ++ fence ++ b) = some (a, b) := by
  intro a
  induction a with
  | nil =>
    intro _ _
    simpa using @breakOn_append_self fence b (by simp [fence])
  | cons c a2 ih =>
    intro hinf hlast
    have hni : ¬ (fence.isPrefixOf (c :: (a2 ++ fence ++ b)) = true) := by
      intro hp
      have hp2 := List.isPrefixOf_iff_prefix.mp hp
      cases a2 with
      | nil =>
        -- the list is c :: fence ++ b; a prefix fence forces c = btick,
        -- contradicting the last-character hypothesis on [c]
        simp only [fence, List.nil_append, List.cons_append, List.cons_prefix_cons,
          List.nil_prefix, and_true] at hp2
        exact hlast c rfl hp2.symm
      | cons d a3 =>
        cases a3 with
        | nil =>
          -- the list is c :: d :: fence ++ b; a prefix fence forces d = btick
          simp only [fence, List.cons_append, List.nil_append, List.cons_prefix_cons,
            List.nil_prefix, and_true] at hp2
          exact hlast d rfl hp2.2.symm
        | cons e a4 =>
          -- at least three characters of a are backticks: fence is an infix of a
          simp only [fence, List.cons_append, List.cons_prefix_cons] at hp2
          obtain ⟨hpc, hpd, hpe, -⟩ := hp2
          exact hinf ⟨[], a4, by simp [fence, hpc.symm, hpd.symm, hpe.symm]⟩
    have hrec : breakOn fence (a2 ++ fence ++ b) = some (a2, b) := by
      refine ih (fun hi => hinf (List.infix_cons hi)) ?_
      intro x hx
      cases a2 with
      | nil => simp at hx
      | cons d a3 => exact hlast x (by rw [List.getLast?_cons_cons]; exact hx)
    have hshape : (c :: a2) ++ fence ++ b = c :: (a2 ++ fence ++ b) := by simp
    rw [hshape, breakOn, if_neg hni, hrec]

/-- A labeled fence marker cannot occur in `w ++ fence` when the plain fence
marker does not occur in `w`: the three backticks of any occurrence would have
to sit inside `w`, and the trailing fence cannot supply the letters "json". -/
theorem not_fenceJson_in_append : ∀ {w : List Char},
    ¬ fence <:+: w → ¬ fenceJson <:+: (w ++ fence) := by
  intro w
  induction w with
  | nil =>
    intro _ h
    have hlen := h.length_le
    simp [fenceJson, fence] at hlen
  | cons c w2 ih =>
    intro hinf h
    obtain ⟨s, t, hst⟩ := h
    cases s with
    | nil =>
      simp only [List.nil_append, List.cons_append] at hst
      cases w2 with
      | nil =>
        have hlen := congrArg List.length hst
        simp [fenceJson, fence] at hlen
      | cons d w3 =>
        cases w3 with
        | nil =>
          have hlen := congrArg List.length hst
          simp [fenceJson, fence] at hlen
        | cons e w4 =>
          simp only [fenceJson, fence, List.cons_append, List.nil_append,
            List.cons.injEq] at hst
          obtain ⟨hc, hd, he, -⟩ := hst
          exact hinf ⟨[], w4, by simp [fence, ← hc, ← hd, ← he]⟩
    | cons x s2 =>
      simp only [List.cons_append, List.cons.injEq] at hst
      exact ih (fun hi => hinf (List.infix_cons hi)) ⟨s2, t, hst.2⟩

/-- Stripping the newline padding around a brace-delimited payload recovers
the payload. -/
theorem strip_newline_payload (q : List Char) :
    pyStrip ('\n' :: ((lbrace :: (q ++ [rbrace])) ++ ['\n'])) = lbrace :: (q ++ [rbrace]) := by
  have w1 : isPyWS '\n' = true := by decide
  have w2 : isPyWS lbrace = false := by decide
  have w3 : isPyWS rbrace = false := by decide
  rw [pyStrip, List.dropWhile_cons, if_pos w1, List.cons_append, dropWhile_cons_false w2]
  rw [show (lbrace :: ((q ++ [rbrace]) ++ ['\n'])).reverse =
      '\n' :: (rbrace :: (q.reverse ++ [lbrace])) from by simp]
  rw [List.dropWhile_cons, if_pos w1, dropWhile_cons_false w3]
  simp

/-- The brace-window step recovers a brace-delimited payload out of
surrounding text that has no opening brace on the left and no closing brace
on the right. -/
theorem braceSlice_payload {q pre post : List Char}
    (hpre : lbrace ∉ pre) (hpost : rbrace ∉ post) :
    braceSlice (pre ++ ((lbrace :: (q ++ [rbrace])) ++ post)) = lbrace :: (q ++ [rbrace]) := by
  have hm1 : lbrace ∈ pre ++ ((lbrace :: (q ++ [rbrace])) ++ post) := by simp
  have hm2 : rbrace ∈ pre ++ ((lbrace :: (q ++ [rbrace])) ++ post) := by simp
  rw [braceSlice, if_pos ⟨hm1, hm2⟩]
  have hb1 : (lbrace != lbrace) = false := by decide
  have hb2 : (rbrace != rbrace) = false := by decide
  have hd1 : (pre ++ ((lbrace :: (q ++ [rbrace])) ++ post)).dropWhile (fun c => c != lbrace) =
      (lbrace :: (q ++ [rbrace])) ++ post := by
    rw [dropWhile_append_head_false pre _ (by intro c hc; simp at hc; subst hc; exact hb1)]
    rw [List.dropWhile_eq_nil_iff.mpr (fun x hx => by
      simp only [bne_iff_ne, ne_eq]
      exact fun hh => hpre (hh ▸ hx))]
    rfl
  rw [hd1]
  rw [show ((lbrace :: (q ++ [rbrace])) ++ post).reverse =
      post.reverse ++ (rbrace :: (q.reverse ++ [lbrace])) from by simp]
  rw [dropWhile_append_head_false post.reverse _ (by intro c hc; simp at hc; subst hc; exact hb2)]
  rw [List.dropWhile_eq_nil_iff.mpr (fun x hx => by
    simp only [bne_iff_ne, ne_eq]
    exact fun hh => hpost (hh ▸ (List.mem_reverse.mp hx)))]
  simp

/-- Extraction on a payload wrapped in a labeled code fence. -/
theorem extract_labeled (q : List Char) (hq : ¬ fence <:+: (lbrace :: (q ++ [rbrace]))) :
    extractContent (fenceJson ++ ('\n' :: ((lbrace :: (q ++ [rbrace])) ++ ('\n' :: fence)))) =
      lbrace :: (q ++ [rbrace]) := by
  have hnl : ('\n' : Char) ∉ fence := by decide
  have hw0 : ¬ fence <:+: ((lbrace :: (q ++ [rbrace])) ++ ['\n']) :=
    fun hi => hq (infix_snoc_elim hnl hi)
  have hw : ¬ fence <:+: ('\n' :: ((lbrace :: (q ++ [rbrace])) ++ ['\n'])) :=
    fun hi => hw0 (infix_cons_elim hnl hi)
  have hshape1 : '\n' :: ((lbrace :: (q ++ [rbrace])) ++ ('\n' :: fence)) =
      ('\n' :: ((lbrace :: (q ++ [rbrace])) ++ ['\n'])) ++ fence := by simp
  have hlast : ∀ x, ('\n' :: ((lbrace :: (q ++ [rbrace])) ++ ['\n'])).getLast? = some x →
      x ≠ btick := by
    intro x hx
    rw [show '\n' :: ((lbrace :: (q ++ [rbrace])) ++ ['\n']) =
        ('\n' :: (lbrace :: (q ++ [rbrace]))) ++ ['\n'] from by simp,
      List.getLast?_concat] at hx
    simp only [Option.some.injEq] at hx
    rw [← hx]
    decide
  have hb2 : breakOn fenceJson ('\n' :: ((lbrace :: (q ++ [rbrace])) ++ ('\n' :: fence))) =
      none := by
    rw [hshape1]
    exact breakOn_eq_none (not_fenceJson_in_append hw)
  have hb3 : breakOn fence ('\n' :: ((lbrace :: (q ++ [rbrace])) ++ ('\n' :: fence))) =
      some ('\n' :: ((lbrace :: (q ++ [rbrace])) ++ ['\n']), []) := by
    rw [hshape1]
    have := @breakOn_first_fence [] _ hw hlast
    simpa using this
  have hstrip : pyStrip (fenceJson ++ ('\n' :: ((lbrace :: (q ++ [rbrace])) ++ ('\n' :: fence)))) =
      fenceJson ++ ('\n' :: ((lbrace :: (q ++ [rbrace])) ++ ('\n' :: fence))) := by
    apply pyStrip_eq_self
    · intro c hc
      rw [show fenceJson ++ ('\n' :: ((lbrace :: (q ++ [rbrace])) ++ ('\n' :: fence))) =
          btick :: (btick :: (btick :: ('j' :: ('s' :: ('o' :: ('n' ::
            ('\n' :: ((lbrace :: (q ++ [rbrace])) ++ ('\n' :: fence)))))))))
          from by simp [fenceJson, fence]] at hc
      simp only [List.head?_cons, Option.some.injEq] at hc
      rw [← hc]
      decide
    · intro c hc
      rw [show fenceJson ++ ('\n' :: ((lbrace :: (q ++ [rbrace])) ++ ('\n' :: fence))) =
          (fenceJson ++ ('\n' :: ((lbrace :: (q ++ [rbrace])) ++ ('\n' :: [btick, btick])))) ++
            [btick] from by simp [fence],
        List.getLast?_concat] at hc
      simp only [Option.some.injEq] at hc
      rw [← hc]
      decide
  have hpref : fenceJson.isPrefixOf
      (fenceJson ++ ('\n' :: ((lbrace :: (q ++ [rbrace])) ++ ('\n' :: fence)))) = true :=
    List.isPrefixOf_iff_prefix.mpr (List.prefix_append _ _)
  have hb1 : breakOn fenceJson
      (fenceJson ++ ('\n' :: ((lbrace :: (q ++ [rbrace])) ++ ('\n' :: fence)))) =
      some ([], '\n' :: ((lbrace :: (q ++ [rbrace])) ++ ('\n' :: fence))) :=
    breakOn_append_self (by simp [fenceJson, fence])
  have hbs : braceSlice (lbrace :: (q ++ [rbrace])) = lbrace :: (q ++ [rbrace]) := by
    have := @braceSlice_payload q [] [] (by simp) (by simp)
    simpa using this
  rw [extractContent]
  rw [hstrip, hpref]
  simp only [if_true, partAfterFirst, partBeforeFirst, hb1, hb2, hb3]
  rw [strip_newline_payload, hbs]

/-- Extraction on a payload wrapped in an unlabeled code fence. -/
theorem extract_unlabeled (q : List Char) (hq : ¬ fence <:+: (lbrace :: (q ++ [rbrace]))) :
    extractContent (fence ++ ('\n' :: ((lbrace :: (q ++ [rbrace])) ++ ('\n' :: fence)))) =
      lbrace :: (q ++ [rbrace]) := by
  have hnl : ('\n' : Char) ∉ fence := by decide
  have hw0 : ¬ fence <:+: ((lbrace :: (q ++ [rbrace])) ++ ['\n']) :=
    fun hi => hq (infix_snoc_elim hnl hi)
  have hw : ¬ fence <:+: ('\n' :: ((lbrace :: (q ++ [rbrace])) ++ ['\n'])) :=
    fun hi => hw0 (infix_cons_elim hnl hi)
  have hshape1 : '\n' :: ((lbrace :: (q ++ [rbrace])) ++ ('\n' :: fence)) =
      ('\n' :: ((lbrace :: (q ++ [rbrace])) ++ ['\n'])) ++ fence := by simp
  have hlast : ∀ x, ('\n' :: ((lbrace :: (q ++ [rbrace])) ++ ['\n'])).getLast? = some x →
      x ≠ btick := by
    intro x hx
    rw [show '\n' :: ((lbrace :: (q ++ [rbrace])) ++ ['\n']) =
        ('\n' :: (lbrace :: (q ++ [rbrace]))) ++ ['\n'] from by simp,
      List.getLast?_concat] at hx
    simp only [Option.some.injEq] at hx
    rw [← hx]
    decide
  have hb3 : breakOn fence ('\n' :: ((lbrace :: (q ++ [rbrace])) ++ ('\n' :: fence))) =
      some ('\n' :: ((lbrace :: (q ++ [rbrace])) ++ ['\n']), []) := by
    rw [hshape1]
    have := @breakOn_first_fence [] _ hw hlast
    simpa using this
  have hb4 : breakOn fence ('\n' :: ((lbrace :: (q ++ [rbrace])) ++ ['\n'])) = none :=
    breakOn_eq_none hw
  have hstrip : pyStrip (fence ++ ('\n' :: ((lbrace :: (q ++ [rbrace])) ++ ('\n' :: fence)))) =
      fence ++ ('\n' :: ((lbrace :: (q ++ [rbrace])) ++ ('\n' :: fence))) := by
    apply pyStrip_eq_self
    · intro c hc
      rw [show fence ++ ('\n' :: ((lbrace :: (q ++ [rbrace])) ++ ('\n' :: fence))) =
          btick :: (btick :: (btick ::
            ('\n' :: ((lbrace :: (q ++ [rbrace])) ++ ('\n' :: fence)))))
          from by simp [fence]] at hc
      simp only [List.head?_cons, Option.some.injEq] at hc
      rw [← hc]
      decide
    · intro c hc
      rw [show fence ++ ('\n' :: ((lbrace :: (q ++ [rbrace])) ++ ('\n' :: fence))) =
          (fence ++ ('\n' :: ((lbrace :: (q ++ [rbrace])) ++ ('\n' :: [btick, btick])))) ++
            [btick] from by simp [fence],
        List.getLast?_concat] at hc
      simp only [Option.some.injEq] at hc
      rw [← hc]
      decide
  have hnpj : fenceJson.isPrefixOf
      (fence ++ ('\n' :: ((lbrace :: (q ++ [rbrace])) ++ ('\n' :: fence)))) = false := by
    rw [show fence ++ ('\n' :: ((lbrace :: (q ++ [rbrace])) ++ ('\n' :: fence))) =
        btick :: (btick :: (btick ::
          ('\n' :: ((lbrace :: (q ++ [rbrace])) ++ ('\n' :: fence)))))
        from by simp [fence]]
    rw [show fenceJson = btick :: (btick :: (btick :: ('j' :: ('s' :: ('o' :: ('n' :: []))))))
        from by simp [fenceJson, fence]]
    rw [Bool.eq_false_iff]
    intro hp
    have hp2 := List.isPrefixOf_iff_prefix.mp hp
    simp only [List.cons_prefix_cons] at hp2
    exact absurd hp2.2.2.2.1 (by decide)
  have hpreff : fence.isPrefixOf
      (fence ++ ('\n' :: ((lbrace :: (q ++ [rbrace])) ++ ('\n' :: fence)))) = true :=
    List.isPrefixOf_iff_prefix.mpr (List.prefix_append _ _)
  have hb1 : breakOn fence
      (fence ++ ('\n' :: ((lbrace :: (q ++ [rbrace])) ++ ('\n' :: fence)))) =
      some ([], '\n' :: ((lbrace :: (q ++ [rbrace])) ++ ('\n' :: fence))) :=
    breakOn_append_self (by simp [fence])
  have hbs : braceSlice (lbrace :: (q ++ [rbrace])) = lbrace :: (q ++ [rbrace]) := by
    have := @braceSlice_payload q [] [] (by simp) (by simp)
    simpa using this
  rw [extractContent]
  rw [hstrip, hnpj, hpreff]
  simp only [Bool.false_eq_true, if_false, if_true, partAfterFirst, partBeforeFirst,
    hb1, hb3, hb4]
  rw [strip_newline_payload, hbs]

/-- Extraction on a payload surrounded by leading and trailing prose, where
the prose carries no fence marker, no opening brace on the left, and no
closing brace on the right. -/
theorem extract_prose (q pre post : List Char)
    (hpre1 : ¬ fence <:+: pre) (hpre2 : lbrace ∉ pre) (hpost : rbrace ∉ post) :
    extractContent (pre ++ ((lbrace :: (q ++ [rbrace])) ++ post)) =
      lbrace :: (q ++ [rbrace]) := by
  have hh1 : ∀ c, ((lbrace :: (q ++ [rbrace])) ++ post).head? = some c → isPyWS c = false := by
    intro c hc
    simp only [List.cons_append, List.head?_cons, Option.some.injEq] at hc
    rw [← hc]
    decide
  have hsp : pyStrip (pre ++ ((lbrace :: (q ++ [rbrace])) ++ post)) =
      pre.dropWhile isPyWS ++
        ((lbrace :: (q ++ [rbrace])) ++ (post.reverse.dropWhile isPyWS).reverse) := by
    rw [pyStrip]
    rw [dropWhile_append_head_false pre _ hh1]
    rw [show (pre.dropWhile isPyWS ++ ((lbrace :: (q ++ [rbrace])) ++ post)).reverse =
        post.reverse ++ ((rbrace :: (q.reverse ++ [lbrace])) ++ (pre.dropWhile isPyWS).reverse)
        from by simp]
    rw [dropWhile_append_head_false post.reverse _ (by
      intro c hc
      simp only [List.cons_append, List.head?_cons, Option.some.injEq] at hc
      rw [← hc]
      decide)]
    simp
  have hpre2b : lbrace ∉ pre.dropWhile isPyWS :=
    fun hm => hpre2 ((List.dropWhile_sublist isPyWS).subset hm)
  have hpostb : rbrace ∉ (post.reverse.dropWhile isPyWS).reverse := by
    intro hm
    exact hpost (List.mem_reverse.mp ((List.dropWhile_sublist isPyWS).subset
      (List.mem_reverse.mp hm)))
  have hprei : ¬ fence <:+: pre.dropWhile isPyWS :=
    fun hi => hpre1 (hi.trans (List.dropWhile_suffix isPyWS).isInfix)
  have hfence_false : fence.isPrefixOf (pre.dropWhile isPyWS ++
      ((lbrace :: (q ++ [rbrace])) ++ (post.reverse.dropWhile isPyWS).reverse)) = false := by
    rw [Bool.eq_false_iff]
    intro hp
    have hp2 := List.isPrefixOf_iff_prefix.mp hp
    rcases hd : pre.dropWhile isPyWS with - | ⟨a, t1⟩
    · rw [hd] at hp2
      simp only [fence, List.nil_append, List.cons_append, List.cons_prefix_cons] at hp2
      exact absurd hp2.1 (by decide)
    · rw [hd] at hp2
      cases t1 with
      | nil =>
        simp only [fence, List.cons_append, List.nil_append, List.cons_prefix_cons] at hp2
        exact absurd hp2.2.1 (by decide)
      | cons b t2 =>
        cases t2 with
        | nil =>
          simp only [fence, List.cons_append, List.nil_append, List.cons_prefix_cons] at hp2
          exact absurd hp2.2.2.1 (by decide)
        | cons c3 t3 =>
          simp only [fence, List.cons_append, List.cons_prefix_cons] at hp2
          obtain ⟨ha, hb, hc, -⟩ := hp2
          rw [hd] at hprei
          exact hprei ⟨[], t3, by simp [fence, ← ha, ← hb, ← hc]⟩
  have hfj_false : fenceJson.isPrefixOf (pre.dropWhile isPyWS ++
      ((lbrace :: (q ++ [rbrace])) ++ (post.reverse.dropWhile isPyWS).reverse)) = false := by
    rw [Bool.eq_false_iff]
    intro hp
    have hp2 := List.isPrefixOf_iff_prefix.mp hp
    have hff : fence <+: fenceJson := ⟨['j', 's', 'o', 'n'], by simp [fenceJson]⟩
    exact (Bool.eq_false_iff.mp hfence_false)
      (List.isPrefixOf_iff_prefix.mpr (hff.trans hp2))
  rw [extractContent]
  rw [hsp, hfj_false, hfence_false]
  simp only [Bool.false_eq_true, if_false]
  exact braceSlice_payload hpre2b hpostb

/- ===== Claim C3 ===== -/

/-- C3 (amended): the extraction recovers exactly the embedded JSON payload
`lbrace :: (q ++ [rbrace])` from a response that wraps it in a labeled code
fence, wraps it in an unlabeled code fence, or surrounds it with
leading/trailing prose outside the outermost braces — provided the payload
contains no triple-backtick fence marker and, in the prose case, the leading
prose contains no fence marker and no opening brace while the trailing prose
contains no closing brace.  Without the no-fence-marker proviso the original
claim fails (see the counterexample). -/
theorem json_extraction_recovers_payload (q pre post : List Char)
    (hq : ¬ fence <:+: (lbrace :: (q ++ [rbrace])))
    (hpre1 : ¬ fence <:+: pre) (hpre2 : lbrace ∉ pre) (hpost : rbrace ∉ post) :
    extractContent (fenceJson ++ ('\n' :: ((lbrace :: (q ++ [rbrace])) ++ ('\n' :: fence)))) =
        lbrace :: (q ++ [rbrace]) ∧
    extractContent (fence ++ ('\n' :: ((lbrace :: (q ++ [rbrace])) ++ ('\n' :: fence)))) =
        lbrace :: (q ++ [rbrace]) ∧
    extractContent (pre ++ ((lbrace :: (q ++ [rbrace])) ++ post)) =
        lbrace :: (q ++ [rbrace]) :=
  ⟨extract_labeled q hq, extract_unlabeled q hq, extract_prose q pre post hpre1 hpre2 hpost⟩

/-- Witness for C3 at a concrete payload, fence wrappings and prose. -/
theorem json_extraction_recovers_payload_witness :
    extractContent (fenceJson ++ ('\n' ::
        ((lbrace :: ("\"title\": \"T\"".data ++ [rbrace])) ++ ('\n' :: fence)))) =
      lbrace :: ("\"title\": \"T\"".data ++ [rbrace]) ∧
    extractContent (fence ++ ('\n' ::
        ((lbrace :: ("\"title\": \"T\"".data ++ [rbrace])) ++ ('\n' :: fence)))) =
      lbrace :: ("\"title\": \"T\"".data ++ [rbrace]) ∧
    extractContent ("Here is the JSON: ".data ++
        ((lbrace :: ("\"title\": \"T\"".data ++ [rbrace])) ++ " hope it helps.".data)) =
      lbrace :: ("\"title\": \"T\"".data ++ [rbrace]) :=
  json_extraction_recovers_payload "\"title\": \"T\"".data "Here is the JSON: ".data
    " hope it helps.".data (by decide) (by decide) (by decide) (by decide)

/-- Counterexample to C3 as stated: a syntactically well-formed JSON payload
holding a triple backtick inside a string value is wrapped in a labeled code
fence, and the extraction answers a strict prefix of the payload instead of
the payload (the split on the fence marker cuts inside the string value). -/
theorem json_extraction_fence_in_payload_cex :
    extractContent (fenceJson ++ ('\n' ::
        ("\x7b\"a\": \"```\"\x7d".data ++ ('\n' :: fence)))) ≠
      "\x7b\"a\": \"```\"\x7d".data := by
  decide
